import Mathlib

/-!
Shallow embedding of the Vietnam POI single-page application
(`src/src/App.jsx`).  JavaScript numbers that originate from parsed JSON
are modelled as `ℚ` (JSON cannot denote NaN or infinities); the result of
`parseFloat` on a raw geocoder field is modelled as `Option ℚ`, with
`none` standing for NaN (the field did not parse as a number).  Strings
are Lean `String`s.  Asynchronous `fetch` calls are modelled by an
environment record that fixes, for each request of one run, whether the
promise rejected, the HTTP `ok` flag, and the result of `.json()`
(`malformed` models a body that is not valid JSON, in which case
`response.json()` throws with the given message).
-/

namespace VietnamPOI

/-- JS truthiness of an optional string field: an absent field and the
empty string are falsy, every other string is truthy. -/
def truthy : Option String → Bool
  | none => false
  | some s => !(s == "")

/-- The tag mapping of an OSM feature, restricted to the keys the
application reads (`buildPoiLabel`, `buildCategory`, address fields).
`none` models an absent key (or a non-string value, which the code's
truthiness checks treat the same way as an empty field). -/
structure OsmTags where
  name : Option String
  name_vi : Option String
  name_en : Option String
  amenity : Option String
  tourism : Option String
  historic : Option String
  leisure : Option String
  shop : Option String
  addr_street : Option String
  addr_full : Option String
deriving DecidableEq, Repr

/-- The empty tag object `{}` (the destructuring default `tags = {}`). -/
def emptyTags : OsmTags :=
  ⟨none, none, none, none, none, none, none, none, none, none⟩

/-- Dynamic key access `tags[field]` for the five category candidate
keys probed by `buildCategory`; any other key is absent. -/
def tagGet (tags : OsmTags) (field : String) : Option String :=
  if field == "tourism" then tags.tourism
  else if field == "amenity" then tags.amenity
  else if field == "historic" then tags.historic
  else if field == "leisure" then tags.leisure
  else if field == "shop" then tags.shop
  else none

/-- `buildPoiLabel` from `App.jsx`: priority fallback over
name, `name:vi`, `name:en`, amenity, tourism, leisure, with the default
label `"Point of interest"`. -/
def buildPoiLabel (tags : OsmTags) : String :=
  if truthy tags.name then tags.name.getD ""
  else if truthy tags.name_vi then tags.name_vi.getD ""
  else if truthy tags.name_en then tags.name_en.getD ""
  else if truthy tags.amenity then tags.amenity.getD ""
  else if truthy tags.tourism then tags.tourism.getD ""
  else if truthy tags.leisure then tags.leisure.getD ""
  else "Point of interest"

/-- `buildCategory` from `App.jsx`: the first candidate key among
tourism, amenity, historic, leisure, shop holding a truthy value,
rendered as `"<field>: <value>"`, defaulting to `"Other"`. -/
def buildCategory (tags : OsmTags) : String :=
  let candidates := ["tourism", "amenity", "historic", "leisure", "shop"]
  match candidates.find? (fun field => truthy (tagGet tags field)) with
  | some key => key ++ ": " ++ (tagGet tags key).getD ""
  | none => "Other"

/-- The fixed weather-code lookup table of `describeWeatherCode`. -/
def weatherCodeLookup : List (Int × String) :=
  [(0, "Clear sky"), (1, "Mainly clear"), (2, "Partly cloudy"), (3, "Overcast"),
   (45, "Fog"), (48, "Depositing rime fog"),
   (51, "Light drizzle"), (53, "Moderate drizzle"), (55, "Dense drizzle"),
   (56, "Light freezing drizzle"), (57, "Dense freezing drizzle"),
   (61, "Slight rain"), (63, "Moderate rain"), (65, "Heavy rain"),
   (66, "Light freezing rain"), (67, "Heavy freezing rain"),
   (71, "Slight snow fall"), (73, "Moderate snow fall"), (75, "Heavy snow fall"),
   (77, "Snow grains"),
   (80, "Rain showers: slight"), (81, "Rain showers: moderate"), (82, "Rain showers: violent"),
   (85, "Snow showers: slight"), (86, "Snow showers: heavy"),
   (95, "Thunderstorm"), (96, "Thunderstorm with slight hail"),
   (99, "Thunderstorm with heavy hail")]

/-- `describeWeatherCode` from `App.jsx`: table lookup with the
unavailable sentinel as fallback (every table entry is truthy). -/
def describeWeatherCode (code : Int) : String :=
  (weatherCodeLookup.lookup code).getD "Weather data unavailable"

/-- `String.prototype.trim`: strip leading and trailing whitespace.
(A structurally recursive model; Lean's own `String.trim` is
well-founded-recursive and so not kernel-computable.) -/
def jsTrim (s : String) : String :=
  ⟨((s.data.dropWhile Char.isWhitespace).reverse.dropWhile Char.isWhitespace).reverse⟩

/-- `normalizeBaseUrl` from `App.jsx`: a non-string environment value
(modelled `none`) becomes `""`; a trailing slash (`endsWith('/')`) is
stripped (`slice(0, -1)`). -/
def normalizeBaseUrl : Option String → String
  | none => ""
  | some rawUrl =>
    if rawUrl.data.getLast? = some '/' then ⟨rawUrl.data.dropLast⟩ else rawUrl

/-- `TRANSLATION_ENDPOINT` as derived from the environment variable
`VITE_TRANSLATION_API_BASE_URL`: empty when the base url normalizes to
the (falsy) empty string. -/
def translationEndpoint (baseUrlEnv : Option String) : String :=
  let base := normalizeBaseUrl baseUrlEnv
  if base == "" then "" else base ++ "/translate"

/-- Outcome of one `fetch`: the promise either rejected (network
failure; the thrown error's message) or delivered an HTTP response with
an `ok` flag and the outcome of `.json()`. -/
inductive JsonOutcome (β : Type) where
  | malformed (message : String)
  | value (v : β)
deriving DecidableEq

/-- A `fetch` promise: rejected, or resolved with `ok` and a body. -/
inductive FetchOutcome (β : Type) where
  | rejected (message : String)
  | response (ok : Bool) (body : JsonOutcome β)
deriving DecidableEq

/-- The first geocoder match: `lat`/`lon` hold the result of
`parseFloat` on the raw fields (`none` = NaN, the field did not parse as
a floating-point number), plus the display label. -/
structure GeoMatch where
  lat : Option ℚ
  lon : Option ℚ
  display_name : String
deriving DecidableEq

/-- Parsed geocoder body: `none` when the JSON is not an array
(`Array.isArray` fails), otherwise the list of matches. -/
abbrev GeoBody := Option (List GeoMatch)

/-- The `current_weather` block of an open-meteo response. -/
structure CurrentWeather where
  temperature : ℚ
  windspeed : ℚ
  winddirection : ℚ
  weathercode : Int
  time : String
deriving DecidableEq

/-- Parsed weather body: `none` when the JSON carries no
`current_weather` block. -/
abbrev WeatherBody := Option CurrentWeather

/-- A `center` object of an area-shaped Overpass feature; each field is
`none` when absent or not a number. -/
structure OsmCenter where
  lat : Option ℚ
  lon : Option ℚ
deriving DecidableEq

/-- One Overpass feature (`element`): identifier, optional tag object
(the destructuring default is `{}`), direct point coordinates (`none`
models an absent or non-number field — parsed JSON cannot contain NaN),
and an optional centroid. -/
structure OsmElement where
  id : Int
  tags : Option OsmTags
  lat : Option ℚ
  lon : Option ℚ
  center : Option OsmCenter
deriving DecidableEq

/-- Parsed Overpass body: `none` when `poiData.elements` is missing or
not an array. -/
abbrev PoiBody := Option (List OsmElement)

/-- A normalized point of interest as published in the result list. -/
structure Poi where
  id : Int
  name : String
  category : String
  lat : ℚ
  lon : ℚ
  distance : ℚ
  address : Option String
deriving DecidableEq

/-- `resultLat` of the normalizer:
`typeof nodeLat === 'number' ? nodeLat : center?.lat`. -/
def resolvedLat (element : OsmElement) : Option ℚ :=
  match element.lat with
  | some v => some v
  | none => element.center.bind OsmCenter.lat

/-- `resultLon` of the normalizer:
`typeof nodeLon === 'number' ? nodeLon : center?.lon`. -/
def resolvedLon (element : OsmElement) : Option ℚ :=
  match element.lon with
  | some v => some v
  | none => element.center.bind OsmCenter.lon

/-- The `addr:street` / `addr:full` fallback (`||` chain, else null). -/
def resolvedAddress (tags : OsmTags) : Option String :=
  if truthy tags.addr_street then tags.addr_street
  else if truthy tags.addr_full then tags.addr_full
  else none

/-- The body of the `.map` callback of the normalizer: builds a `Poi`
from one feature, or `null` (`none`) when no usable coordinate exists.
The distance function is a parameter: the source computes
`haversineDistance(latitude, longitude, resultLat, resultLon)` in
floating point, with the search center possibly NaN (`none`). -/
def formatElement (dist : Option ℚ → Option ℚ → ℚ → ℚ → ℚ)
    (latitude longitude : Option ℚ) (element : OsmElement) : Option Poi :=
  let tags := element.tags.getD emptyTags
  match resolvedLat element, resolvedLon element with
  | some resultLat, some resultLon =>
      some { id := element.id
             name := buildPoiLabel tags
             category := buildCategory tags
             lat := resultLat
             lon := resultLon
             distance := dist latitude longitude resultLat resultLon
             address := resolvedAddress tags }
  | _, _ => none

/-- The comparison relation realized by the comparator
`(a, b) => a.distance - b.distance`. -/
def distanceLe (a b : Poi) : Prop := a.distance ≤ b.distance

instance : DecidableRel distanceLe := fun a b =>
  inferInstanceAs (Decidable (a.distance ≤ b.distance))

instance : IsTotal Poi distanceLe := ⟨fun a b => le_total a.distance b.distance⟩

instance : IsTrans Poi distanceLe := ⟨fun _ _ _ h1 h2 => le_trans h1 h2⟩

/-- The normalize–rank–truncate pipeline of `handleSearch`:
`.map(...).filter(Boolean)` (= `filterMap`), a stable sort by the
numeric comparator on `distance` (JavaScript's `Array.prototype.sort`
with a consistent comparator is modelled by the stable insertion sort),
then `.slice(0, 5)`. -/
def formatPois (dist : Option ℚ → Option ℚ → ℚ → ℚ → ℚ)
    (latitude longitude : Option ℚ) (elements : List OsmElement) : List Poi :=
  (List.insertionSort distanceLe
    (elements.filterMap (formatElement dist latitude longitude))).take 5

/-- The resolved place held in `selectedPlace`; `lat`/`lon` are the
unchecked results of `parseFloat` (`none` = NaN). -/
structure Place where
  lat : Option ℚ
  lon : Option ℚ
  label : String
deriving DecidableEq

/-- The normalized weather snapshot held in `weatherInfo`. -/
structure WeatherInfo where
  temperature : ℚ
  windSpeed : ℚ
  windDirection : ℚ
  description : String
  observationTime : String
deriving DecidableEq

/-- The search-relevant slice of the component state (the
SearchSession): loading flag, error message, place, POI list, weather. -/
structure AppState where
  isLoading : Bool
  errorMessage : String
  selectedPlace : Option Place
  pois : List Poi
  weatherInfo : Option WeatherInfo
deriving DecidableEq

/-- The initial component state. -/
def initialState : AppState := ⟨false, "", none, [], none⟩

/-- The per-search network environment: the three `fetch` calls of one
run of `handleSearch`.  When both fan-out promises reject, `Promise.all`
is modelled as rejecting with the weather rejection (array order); every
claim below only exercises runs where at most one of them rejects. -/
structure SearchEnv where
  geocode : FetchOutcome GeoBody
  weather : FetchOutcome WeatherBody
  poi : FetchOutcome PoiBody
deriving DecidableEq

/-- The `try` block of `handleSearch`, from the geocode request to
`setPois(formatted)`.  Returns the state as mutated so far together with
`some message` when the block threw (the `catch` argument's message) or
`none` when it ran to completion. -/
def runSearchBody (dist : Option ℚ → Option ℚ → ℚ → ℚ → ℚ)
    (env : SearchEnv) (s : AppState) : AppState × Option String :=
  match env.geocode with
  | .rejected e => (s, some e)
  | .response gok gbody =>
    if !gok then (s, some "Unable to locate the place, please try again.")
    else
      match gbody with
      | .malformed e => (s, some e)
      | .value none => (s, some "No matching location found in Vietnam.")
      | .value (some []) => (s, some "No matching location found in Vietnam.")
      | .value (some (first :: _)) =>
        let latitude := first.lat
        let longitude := first.lon
        let s1 := { s with selectedPlace := some ⟨latitude, longitude, first.display_name⟩ }
        match env.weather, env.poi with
        | .rejected e, _ => (s1, some e)
        | _, .rejected e => (s1, some e)
        | .response wok wbody, .response pok pbody =>
          if !pok then (s1, some "Unable to fetch nearby points of interest.")
          else
            let weatherStep : String ⊕ AppState :=
              if wok then
                match wbody with
                | .malformed e => .inl e
                | .value (some cw) =>
                    .inr { s1 with weatherInfo := some ⟨cw.temperature, cw.windspeed,
                      cw.winddirection, describeWeatherCode cw.weathercode, cw.time⟩ }
                | .value none => .inr { s1 with weatherInfo := none }
              else .inr { s1 with weatherInfo := none }
            match weatherStep with
            | .inl e => (s1, some e)
            | .inr s2 =>
              match pbody with
              | .malformed e => (s2, some e)
              | .value poiData =>
                let elements := poiData.getD []
                let formatted := formatPois dist latitude longitude elements
                let s3 := if formatted.length = 0 then
                    { s2 with errorMessage :=
                      "No notable places found within 2km of this location." }
                  else s2
                ({ s3 with pois := formatted }, none)

/-- The pre-`try` clears of a validated search attempt: enter loading,
clear the error, the POI list and the weather snapshot. -/
def clearedForSearch (s : AppState) : AppState :=
  { s with isLoading := true, errorMessage := "", pois := [], weatherInfo := none }

/-- `handleSearch` from `App.jsx` as a pure state transformer: local
validation, the pre-`try` clears, the `try` body, the `catch` that
stores `error.message || fallback`, and the `finally` that exits the
loading state. -/
def handleSearch (dist : Option ℚ → Option ℚ → ℚ → ℚ → ℚ)
    (currentUser : Bool) (userQuery : String)
    (env : SearchEnv) (s : AppState) : AppState :=
  if !currentUser then
    { s with errorMessage := "Vui lòng đăng nhập để tìm kiếm địa điểm." }
  else
    let trimmed := jsTrim userQuery
    if trimmed == "" then { s with errorMessage := "Please enter a location name." }
    else
      match runSearchBody dist env (clearedForSearch s) with
      | (sEnd, none) => { sEnd with isLoading := false }
      | (sEnd, some msg) =>
        { sEnd with
          errorMessage :=
            if msg == "" then "Something went wrong, please try again." else msg,
          isLoading := false }

/-- A search attempt terminated in a failure: the `try` body threw and
the `catch` branch ran. -/
def searchThrew (dist : Option ℚ → Option ℚ → ℚ → ℚ → ℚ)
    (env : SearchEnv) (s : AppState) : Bool :=
  (runSearchBody dist env s).2.isSome

/-- The translation-relevant slice of the component state. -/
structure TransState where
  isTranslating : Bool
  translationResult : String
  translationError : String
deriving DecidableEq

/-- Parsed success body of the translation service:
`translated_text` is `none` when the field is missing or not a string
(the `typeof` check fails). -/
structure TransBody where
  translated_text : Option String
deriving DecidableEq

/-- Parsed error body of the translation service: the `detail` and
`error` fields, each `none` when missing or not a string. -/
structure TransErrBody where
  detail : Option String
  error : Option String
deriving DecidableEq

/-- A resolved translation response: `ok`, HTTP status, the result of
`JSON.parse` on the error text (`none` models a parse failure, which
the code swallows), and the result of `.json()` on the success path. -/
structure TransResponse where
  ok : Bool
  status : Nat
  errBody : Option TransErrBody
  body : JsonOutcome TransBody
deriving DecidableEq

/-- The translation `fetch` promise: rejected or resolved. -/
inductive TransFetch where
  | rejected (message : String)
  | response (r : TransResponse)
deriving DecidableEq

/-- `typeof data?.translated_text === 'string' ? data.translated_text.trim() : ''`. -/
def extractTranslatedText (data : TransBody) : String :=
  match data.translated_text with
  | some t => jsTrim t
  | none => ""

/-- The error-detail extraction of the non-success branch: `detail` if
it is a string, else `error` if it is a string, else the empty string
(also when `JSON.parse` threw). -/
def extractErrorDetail (errBody : Option TransErrBody) : String :=
  match errBody with
  | none => ""
  | some parsed =>
    match parsed.detail with
    | some d => d
    | none =>
      match parsed.error with
      | some e => e
      | none => ""

/-- `handleTranslate` from `App.jsx` as a pure state transformer.  The
second component records whether the network request was issued (the
code reached `fetch`). -/
def handleTranslate (currentUser : Bool) (baseUrlEnv : Option String)
    (resp : TransFetch) (englishText : String) (s : TransState) : TransState × Bool :=
  if !currentUser then
    ({ s with translationError := "Bạn cần đăng nhập trước khi sử dụng công cụ dịch." }, false)
  else
    let trimmed := jsTrim englishText
    if trimmed == "" then
      ({ s with translationError := "Please enter an English sentence to translate.", translationResult := "" }, false)
    else if translationEndpoint baseUrlEnv == "" then
      ({ s with translationError := "Translation service is not configured. Please set VITE_TRANSLATION_API_BASE_URL.", translationResult := "" }, false)
    else
      let s0 : TransState :=
        { isTranslating := true, translationError := "", translationResult := "" }
      match resp with
      | .rejected e =>
        ({ s0 with
           translationError := if e == "" then "Unable to translate this sentence." else e,
           isTranslating := false }, true)
      | .response r =>
        if !r.ok then
          let fallback := "Translation service returned status " ++ toString r.status ++ "."
          let detail := extractErrorDetail r.errBody
          let msg := if detail == "" then fallback else detail
          ({ s0 with translationError := msg, isTranslating := false }, true)
        else
          match r.body with
          | .malformed e =>
            ({ s0 with
               translationError := if e == "" then "Unable to translate this sentence." else e,
               isTranslating := false }, true)
          | .value data =>
            let translatedText := extractTranslatedText data
            if translatedText == "" then
              ({ s0 with
                 translationError := "Translation service did not return any translated text.",
                 isTranslating := false }, true)
            else
              ({ s0 with translationResult := translatedText, isTranslating := false }, true)

/-- Degrees to radians: the inner `toRad` of `haversineDistance`. -/
noncomputable def toRad (value : ℝ) : ℝ := value * Real.pi / 180

/-- `Math.atan2 y x`: the two-argument arctangent, i.e. the argument of
the complex number with real part `x` and imaginary part `y`. -/
noncomputable def atan2 (y x : ℝ) : ℝ := Complex.arg ⟨x, y⟩

/-- `haversineDistance` from `App.jsx`, read over the real numbers (the
floating-point program computes a rounding of this function). -/
noncomputable def haversineDistance (lat1 lon1 lat2 lon2 : ℝ) : ℝ :=
  let R : ℝ := 6371000
  let phi1 := toRad lat1
  let phi2 := toRad lat2
  let dPhi := toRad (lat2 - lat1)
  let dLambda := toRad (lon2 - lon1)
  let a := Real.sin (dPhi / 2) ^ 2 +
    Real.cos phi1 * Real.cos phi2 * Real.sin (dLambda / 2) ^ 2
  let c := 2 * atan2 (Real.sqrt a) (Real.sqrt (1 - a))
  R * c

/-- The value of the first present field of a priority list, else the
default; written from the spec's words, with presence read as the
code's JS truthiness (an absent field and the empty string are not
present). -/
def firstPresent : List (Option String) → String → String
  | [], dflt => dflt
  | f :: rest, dflt => if truthy f then f.getD "" else firstPresent rest dflt

/-- The spec's name derivation: priority fallback over primary name,
localized name (vi), localized name (en), amenity, tourism, leisure,
defaulting to the generic label. -/
def specPoiName (tags : OsmTags) : String :=
  firstPresent
    [tags.name, tags.name_vi, tags.name_en, tags.amenity, tags.tourism, tags.leisure]
    "Point of interest"

/-- The spec's category derivation: first present of tourism, amenity,
historic, leisure, shop rendered as the field name, a colon and the
value, defaulting to `"Other"`. -/
def specCategory (tags : OsmTags) : String :=
  if truthy tags.tourism then "tourism" ++ ": " ++ tags.tourism.getD ""
  else if truthy tags.amenity then "amenity" ++ ": " ++ tags.amenity.getD ""
  else if truthy tags.historic then "historic" ++ ": " ++ tags.historic.getD ""
  else if truthy tags.leisure then "leisure" ++ ": " ++ tags.leisure.getD ""
  else if truthy tags.shop then "shop" ++ ": " ++ tags.shop.getD ""
  else "Other"

/-- Tags holding only `{amenity: "cafe"}`. -/
def cafeTags : OsmTags := { emptyTags with amenity := some "cafe" }

/-- Tags holding `{tourism: "museum", amenity: "cafe"}`. -/
def museumCafeTags : OsmTags :=
  { emptyTags with tourism := some "museum", amenity := some "cafe" }

/-- A feature record lacking both a direct point coordinate and a
centroid. -/
def lacksDirectAndCentroid (e : OsmElement) : Bool :=
  e.lat.isNone && e.lon.isNone && e.center.isNone

/-- A concrete distance assignment used by concrete runs. -/
def distZero : Option ℚ → Option ℚ → ℚ → ℚ → ℚ := fun _ _ _ _ => 0

/-- A concrete feature with no coordinate of either kind. -/
def eNoCoord : OsmElement := ⟨7, none, none, none, none⟩

/-- A network environment in which every request would reject; local
validation must return before consulting it. -/
def envAllRejected : SearchEnv :=
  ⟨.rejected "offline", .rejected "offline", .rejected "offline"⟩

/-- A geocoder match whose raw latitude does not parse as a
floating-point number (`parseFloat` yields NaN, modelled `none`). -/
def geoMatchBadLat : GeoMatch := ⟨none, some 105, "Somewhere, Vietnam"⟩

/-- A concrete well-formed cafe feature with direct point coordinates. -/
def elemCafe : OsmElement := ⟨11, some cafeTags, some 21, some 105, none⟩

/-- A concrete successful geocoder fetch resolving to one match. -/
def geoOkHanoi : FetchOutcome GeoBody :=
  .response true (.value (some [⟨some 21, some 105, "Hanoi, Vietnam"⟩]))

/-- A concrete successful weather fetch with a current-conditions
block (code 3 = Overcast). -/
def weatherOkValue : FetchOutcome WeatherBody :=
  .response true (.value (some ⟨25, 10, 90, 3, "2025-01-01T00:00"⟩))

/-- Environment for a run whose geocoder match has an unparsable
latitude and whose fan-out succeeds. -/
def envBadLat : SearchEnv :=
  ⟨.response true (.value (some [geoMatchBadLat])),
   .response true (.value none),
   .response true (.value (some [elemCafe]))⟩

/-- Environment in which the POI response has success status but a body
that is not valid JSON, while the weather response is well-formed. -/
def envPoiMalformed : SearchEnv :=
  ⟨geoOkHanoi, weatherOkValue,
   .response true (.malformed "Unexpected token u in JSON")⟩

/-- Environment in which only the weather fetch fails (the promise
rejects with a network error). -/
def envWeatherRejected : SearchEnv :=
  ⟨geoOkHanoi, .rejected "Failed to fetch",
   .response true (.value (some [elemCafe]))⟩

/-- Environment in which the weather response has a non-success status
and everything else succeeds. -/
def envWeatherNotOk : SearchEnv :=
  ⟨geoOkHanoi, .response false (.value none),
   .response true (.value (some [elemCafe]))⟩

/-- Environment in which the POI response has a non-success status. -/
def envPoiNotOk : SearchEnv :=
  ⟨geoOkHanoi, weatherOkValue, .response false (.value none)⟩

/-- A translation response with success status whose translated text
trims to the empty string. -/
def respBlankTranslation : TransResponse :=
  ⟨true, 200, none, .value ⟨some "   "⟩⟩

/-- C1: for every well-formed feature list (and any distance
assignment), the normalize–rank–truncate step publishes at most 5 POIs,
and the published list is ordered by non-decreasing distance from the
search center. -/
theorem c1_formatPois_capped_and_sorted
    (dist : Option ℚ → Option ℚ → ℚ → ℚ → ℚ) (latitude longitude : Option ℚ)
    (elements : List OsmElement) :
    (formatPois dist latitude longitude elements).length ≤ 5 ∧
    (formatPois dist latitude longitude elements).Pairwise distanceLe :=
  ⟨List.length_take_le 5 _,
   List.Pairwise.sublist (List.take_sublist 5 _)
     (List.sorted_insertionSort distanceLe _)⟩

/-- C4: a feature record lacking both a direct point coordinate and a
centroid is excluded from the normalized output (and normalization,
being a total function, raises no exception); consequently every
published POI carries the rational coordinate of the record it came
from. -/
theorem c4_no_coordinate_excluded
    (dist : Option ℚ → Option ℚ → ℚ → ℚ → ℚ) (latitude longitude : Option ℚ)
    (e : OsmElement) (es : List OsmElement)
    (h : lacksDirectAndCentroid e = true) :
    formatPois dist latitude longitude (e :: es) =
      formatPois dist latitude longitude es := by
  obtain ⟨i, t, elat, elon, ecen⟩ := e
  simp only [lacksDirectAndCentroid, Bool.and_eq_true, Option.isNone_iff_eq_none] at h
  obtain ⟨⟨h1, h2⟩, h3⟩ := h
  subst h1 h2 h3
  simp [formatPois, formatElement, resolvedLat, resolvedLon]

/-- Witness for C4 at a concrete coordinate-free feature. -/
theorem c4_witness :
    lacksDirectAndCentroid eNoCoord = true ∧
    formatPois distZero (some 21) (some 105) [eNoCoord] =
      formatPois distZero (some 21) (some 105) [] :=
  ⟨rfl, c4_no_coordinate_excluded distZero (some 21) (some 105) eNoCoord [] rfl⟩

/-- C6: for every tag mapping the derived POI name is the first present
(truthy) field among primary name, localized name (vi), localized name
(en), amenity, tourism, leisure, defaulting to `"Point of interest"`;
in particular `{amenity: "cafe"}` yields `"cafe"` and an empty mapping
yields the default. -/
theorem c6_poi_name_priority_fallback :
    (∀ tags : OsmTags, buildPoiLabel tags = specPoiName tags) ∧
    buildPoiLabel cafeTags = "cafe" ∧
    buildPoiLabel emptyTags = "Point of interest" :=
  ⟨fun _ => rfl, rfl, rfl⟩

/-- C7: for every tag mapping the derived category is the first present
field in the priority order tourism, amenity, historic, leisure, shop
rendered as the field name, a colon-space, and its value, defaulting to
`"Other"`; in particular `{tourism: "museum", amenity: "cafe"}` yields
`"tourism: museum"`. -/
theorem c7_category_priority_fallback :
    (∀ tags : OsmTags, buildCategory tags = specCategory tags) ∧
    buildCategory museumCafeTags = "tourism: museum" := by
  constructor
  · intro tags
    unfold buildCategory specCategory
    cases h1 : truthy tags.tourism <;> cases h2 : truthy tags.amenity <;>
      cases h3 : truthy tags.historic <;> cases h4 : truthy tags.leisure <;>
      cases h5 : truthy tags.shop <;>
      simp +decide [List.find?, tagGet, h1, h2, h3, h4, h5]
  · rfl

/-- C8: the distance function vanishes on equal endpoints and is
symmetric; over the reals (of which the floating-point program is a
rounding) both identities are exact. -/
theorem c8_haversine_self_and_symm (lat1 lon1 lat2 lon2 : ℝ) :
    haversineDistance lat1 lon1 lat1 lon1 = 0 ∧
    haversineDistance lat1 lon1 lat2 lon2 = haversineDistance lat2 lon2 lat1 lon1 := by
  have harg1 : atan2 0 1 = 0 := by
    unfold atan2
    have h1 : (⟨1, 0⟩ : ℂ) = 1 := by
      refine Complex.ext ?_ ?_ <;> simp
    rw [h1, Complex.arg_one]
  have hsinsq : ∀ u : ℝ, Real.sin (toRad (-u) / 2) ^ 2 = Real.sin (toRad u / 2) ^ 2 := by
    intro u
    have h2 : toRad (-u) = -toRad u := by unfold toRad; ring
    rw [h2, neg_div, Real.sin_neg]
    ring
  constructor
  · show haversineDistance lat1 lon1 lat1 lon1 = 0
    unfold haversineDistance
    have h00 : toRad 0 = 0 := by unfold toRad; ring
    simp [h00, Real.sqrt_zero, Real.sqrt_one, harg1]
  · unfold haversineDistance
    have e1 : lat1 - lat2 = -(lat2 - lat1) := by ring
    have e2 : lon1 - lon2 = -(lon2 - lon1) := by ring
    simp only []
    rw [e1, e2, hsinsq, hsinsq,
      mul_comm (Real.cos (toRad lat2)) (Real.cos (toRad lat1))]

/-- C10: a search rejected by local validation (unauthenticated caller
or query trimming to empty) changes only the error message: place, POI
list, weather and the loading flag are untouched, and the loading state
is never entered (the handler returns before the loading mutation). -/
theorem c10_validation_reject_frame
    (dist : Option ℚ → Option ℚ → ℚ → ℚ → ℚ) (currentUser : Bool)
    (userQuery : String) (env : SearchEnv) (s : AppState)
    (h : currentUser = false ∨ jsTrim userQuery = "") :
    (handleSearch dist currentUser userQuery env s).selectedPlace = s.selectedPlace ∧
    (handleSearch dist currentUser userQuery env s).pois = s.pois ∧
    (handleSearch dist currentUser userQuery env s).weatherInfo = s.weatherInfo ∧
    (handleSearch dist currentUser userQuery env s).isLoading = s.isLoading := by
  rcases h with h | h
  · subst h
    simp [handleSearch]
  · cases currentUser <;> simp [handleSearch, h]

/-- Witness for C10 at a concrete unauthenticated call. -/
theorem c10_witness :
    (false = false ∨ jsTrim "Hanoi" = "") ∧
    ((handleSearch distZero false "Hanoi" envAllRejected initialState).selectedPlace =
        initialState.selectedPlace ∧
      (handleSearch distZero false "Hanoi" envAllRejected initialState).pois =
        initialState.pois ∧
      (handleSearch distZero false "Hanoi" envAllRejected initialState).weatherInfo =
        initialState.weatherInfo ∧
      (handleSearch distZero false "Hanoi" envAllRejected initialState).isLoading =
        initialState.isLoading) :=
  ⟨Or.inl rfl,
   c10_validation_reject_frame distZero false "Hanoi" envAllRejected initialState
     (Or.inl rfl)⟩

/-- C9: the translate operation rejects locally with zero network calls
when the caller is unauthenticated, when the trimmed input is empty, or
when the endpoint is unconfigured; and a success response whose
translated-text field is missing, non-string, or trims to empty fails
with the empty-result error instead of publishing an empty
translation. -/
theorem c9_translate_local_reject_and_empty_result
    (baseUrlEnv : Option String) (resp : TransFetch) (englishText : String)
    (s : TransState) :
    (handleTranslate false baseUrlEnv resp englishText s =
      ({ s with translationError := "Bạn cần đăng nhập trước khi sử dụng công cụ dịch." },
        false)) ∧
    (jsTrim englishText = "" →
      handleTranslate true baseUrlEnv resp englishText s =
        ({ s with translationError := "Please enter an English sentence to translate.", translationResult := "" }, false)) ∧
    (jsTrim englishText ≠ "" → translationEndpoint baseUrlEnv = "" →
      handleTranslate true baseUrlEnv resp englishText s =
        ({ s with translationError := "Translation service is not configured. Please set VITE_TRANSLATION_API_BASE_URL.", translationResult := "" }, false)) ∧
    (∀ r : TransResponse, ∀ data : TransBody,
      jsTrim englishText ≠ "" → translationEndpoint baseUrlEnv ≠ "" →
      r.ok = true → r.body = .value data → extractTranslatedText data = "" →
      handleTranslate true baseUrlEnv (.response r) englishText s =
        (⟨false, "", "Translation service did not return any translated text."⟩, true)) := by
  refine ⟨?_, ?_, ?_, ?_⟩
  · simp [handleTranslate]
  · intro h
    simp [handleTranslate, h]
  · intro h h2
    simp [handleTranslate, h, h2]
  · intro r data h h2 hok hbody hempty
    obtain ⟨rok, rstatus, rerr, rbody⟩ := r
    simp only at hok hbody
    subst hok hbody
    simp [handleTranslate, h, h2, hempty]

/-- Witness for C9: the unauthenticated rejection and the blank
translated-text failure at concrete inputs. -/
theorem c9_witness :
    (handleTranslate false (some "http://x") (.response respBlankTranslation) "hello"
        ⟨false, "", ""⟩ =
      ({ (⟨false, "", ""⟩ : TransState) with
          translationError := "Bạn cần đăng nhập trước khi sử dụng công cụ dịch." },
        false)) ∧
    (handleTranslate true (some "http://x") (.response respBlankTranslation) "hello"
        ⟨false, "", ""⟩ =
      (⟨false, "", "Translation service did not return any translated text."⟩, true)) :=
  ⟨(c9_translate_local_reject_and_empty_result (some "http://x")
      (.response respBlankTranslation) "hello" ⟨false, "", ""⟩).1,
   (c9_translate_local_reject_and_empty_result (some "http://x")
      (.response respBlankTranslation) "hello" ⟨false, "", ""⟩).2.2.2
     respBlankTranslation ⟨some "   "⟩ (by decide) (by decide) rfl rfl (by decide)⟩

/-- C3 (amended): once the geocoder returns a non-empty match list, the
first match is stored wholesale as the new Place — including when a
coordinate field did not parse (NaN, modelled `none`); no check on the
parse result is performed, no NotFound-class failure is raised for it,
and the handler never crashes (it is a total function). -/
theorem c3_amended_place_stored_unchecked
    (dist : Option ℚ → Option ℚ → ℚ → ℚ → ℚ) (env : SearchEnv) (s : AppState)
    (userQuery : String) (first : GeoMatch) (rest : List GeoMatch)
    (hq : jsTrim userQuery ≠ "")
    (hg : env.geocode = .response true (.value (some (first :: rest)))) :
    (handleSearch dist true userQuery env s).selectedPlace =
      some ⟨first.lat, first.lon, first.display_name⟩ := by
  obtain ⟨geo, wea, poi⟩ := env
  simp only at hg
  subst hg
  rcases wea with e | ⟨wok, wbody⟩
  · rcases poi with e2 | ⟨pok, pbody⟩ <;>
      simp [handleSearch, runSearchBody, clearedForSearch, hq]
  · rcases poi with e2 | ⟨pok, pbody⟩
    · simp [handleSearch, runSearchBody, clearedForSearch, hq]
    · cases pok
      · simp [handleSearch, runSearchBody, clearedForSearch, hq]
      · cases wok <;> rcases wbody with e3 | (_ | cw) <;> rcases pbody with e4 | pd <;>
          simp [handleSearch, runSearchBody, clearedForSearch, hq, apply_ite]

/-- Witness for C3 (amended) at a concrete run whose geocoder match has
an unparsable latitude. -/
theorem c3_witness :
    jsTrim "Hanoi" ≠ "" ∧
    envBadLat.geocode = .response true (.value (some [geoMatchBadLat])) ∧
    (handleSearch distZero true "Hanoi" envBadLat initialState).selectedPlace =
      some ⟨geoMatchBadLat.lat, geoMatchBadLat.lon, geoMatchBadLat.display_name⟩ :=
  ⟨by decide, rfl,
   c3_amended_place_stored_unchecked distZero envBadLat initialState "Hanoi"
     geoMatchBadLat [] (by decide) rfl⟩

/-- Counterexample to C3 as stated: a geocoder match whose latitude does
not parse is stored as the new Place (with the NaN coordinate) and the
search completes without any error, instead of failing with a
NotFound-class error. -/
theorem c3_counterexample :
    geoMatchBadLat.lat = none ∧
    (handleSearch distZero true "Hanoi" envBadLat initialState).selectedPlace =
      some ⟨none, some 105, "Somewhere, Vietnam"⟩ ∧
    (handleSearch distZero true "Hanoi" envBadLat initialState).errorMessage = "" := by
  refine ⟨rfl, ?_, ?_⟩ <;> rfl

/-- The `catch` branch's stored message `error.message || fallback` is
never the empty string. -/
theorem catchMessage_ne_empty (msg : String) :
    (if msg == "" then "Something went wrong, please try again." else msg) ≠ "" := by
  cases h : msg == ""
  · simpa [h] using beq_eq_false_iff_ne.mp h
  · simp [h]

/-- Frame property of the `try` body on the throw path: a throw leaves
the POI list untouched, and leaves the weather snapshot untouched except
when the throw came from parsing the POI body of a success-status POI
response (which happens after weather normalization). -/
theorem runSearchBody_throw_frame
    (dist : Option ℚ → Option ℚ → ℚ → ℚ → ℚ) (env : SearchEnv) (s : AppState)
    (s' : AppState) (msg : String)
    (h : runSearchBody dist env s = (s', some msg)) :
    s'.pois = s.pois ∧
    (s'.weatherInfo = s.weatherInfo ∨ ∃ e, env.poi = .response true (.malformed e)) := by
  obtain ⟨geo, wea, poi⟩ := env
  rcases geo with e | ⟨gok, gbody⟩
  · simp [runSearchBody] at h
    obtain ⟨h1, h2⟩ := h
    subst h1
    exact ⟨rfl, Or.inl rfl⟩
  · cases gok
    · simp [runSearchBody] at h
      obtain ⟨h1, h2⟩ := h
      subst h1
      exact ⟨rfl, Or.inl rfl⟩
    · rcases gbody with e2 | (_ | (_ | ⟨first, rest⟩))
      · simp [runSearchBody] at h
        obtain ⟨h1, h2⟩ := h
        subst h1
        exact ⟨rfl, Or.inl rfl⟩
      · simp [runSearchBody] at h
        obtain ⟨h1, h2⟩ := h
        subst h1
        exact ⟨rfl, Or.inl rfl⟩
      · simp [runSearchBody] at h
        obtain ⟨h1, h2⟩ := h
        subst h1
        exact ⟨rfl, Or.inl rfl⟩
      · rcases wea with e3 | ⟨wok, wbody⟩
        · simp [runSearchBody] at h
          obtain ⟨h1, h2⟩ := h
          subst h1
          exact ⟨rfl, Or.inl rfl⟩
        · rcases poi with e4 | ⟨pok, pbody⟩
          · simp [runSearchBody] at h
            obtain ⟨h1, h2⟩ := h
            subst h1
            exact ⟨rfl, Or.inl rfl⟩
          · cases pok
            · simp [runSearchBody] at h
              obtain ⟨h1, h2⟩ := h
              subst h1
              exact ⟨rfl, Or.inl rfl⟩
            · cases wok
              · rcases pbody with e5 | pd
                · simp [runSearchBody] at h
                  obtain ⟨h1, h2⟩ := h
                  subst h1
                  exact ⟨rfl, Or.inr ⟨e5, rfl⟩⟩
                · simp [runSearchBody] at h
              · rcases wbody with e6 | (_ | cw)
                · simp [runSearchBody] at h
                  obtain ⟨h1, h2⟩ := h
                  subst h1
                  exact ⟨rfl, Or.inl rfl⟩
                · rcases pbody with e5 | pd
                  · simp [runSearchBody] at h
                    obtain ⟨h1, h2⟩ := h
                    subst h1
                    exact ⟨rfl, Or.inr ⟨e5, rfl⟩⟩
                  · simp [runSearchBody] at h
                · rcases pbody with e5 | pd
                  · simp [runSearchBody] at h
                    obtain ⟨h1, h2⟩ := h
                    subst h1
                    exact ⟨rfl, Or.inr ⟨e5, rfl⟩⟩
                  · simp [runSearchBody] at h

/-- C2 (amended): every search that terminates in a failure publishes a
non-empty error message and an empty POI list; the weather snapshot is
absent in every failure except one thrown while parsing the POI body of
a success-status POI response — that parse runs after weather
normalization, so the snapshot of the current search may remain. -/
theorem c2_amended_failure_state
    (dist : Option ℚ → Option ℚ → ℚ → ℚ → ℚ) (env : SearchEnv) (s : AppState)
    (userQuery : String) (hq : jsTrim userQuery ≠ "")
    (hthrew : searchThrew dist env (clearedForSearch s) = true) :
    (handleSearch dist true userQuery env s).errorMessage ≠ "" ∧
    (handleSearch dist true userQuery env s).pois = [] ∧
    ((handleSearch dist true userQuery env s).weatherInfo ≠ none →
      ∃ e, env.poi = .response true (.malformed e)) := by
  unfold searchThrew at hthrew
  rcases hcase : runSearchBody dist env (clearedForSearch s) with ⟨s1, r⟩
  rw [hcase] at hthrew
  rcases r with _ | msg
  · simp at hthrew
  · have hframe := runSearchBody_throw_frame dist env (clearedForSearch s) s1 msg hcase
    have hh : handleSearch dist true userQuery env s =
        { s1 with
          errorMessage :=
            if msg == "" then "Something went wrong, please try again." else msg,
          isLoading := false } := by
      simp [handleSearch, hq, hcase]
    rw [hh]
    refine ⟨catchMessage_ne_empty msg, ?_, ?_⟩
    · simpa [clearedForSearch] using hframe.1
    · intro hw
      rcases hframe.2 with hnone | hex
      · exact absurd (by simpa [clearedForSearch] using hnone) hw
      · exact hex

/-- Witness for C2 (amended) at a concrete failing run (POI response
with non-success status). -/
theorem c2_witness :
    jsTrim "Hanoi" ≠ "" ∧
    searchThrew distZero envPoiNotOk (clearedForSearch initialState) = true ∧
    ((handleSearch distZero true "Hanoi" envPoiNotOk initialState).errorMessage ≠ "" ∧
      (handleSearch distZero true "Hanoi" envPoiNotOk initialState).pois = [] ∧
      ((handleSearch distZero true "Hanoi" envPoiNotOk initialState).weatherInfo ≠ none →
        ∃ e, envPoiNotOk.poi = .response true (.malformed e))) :=
  ⟨by decide, by decide,
   c2_amended_failure_state distZero envPoiNotOk initialState "Hanoi"
     (by decide) (by decide)⟩

/-- Counterexample to C2 as stated: when the POI response has success
status but a body that fails to parse, the search fails after weather
normalization, so the published failure state carries the freshly
normalized weather snapshot — not an absent one. -/
theorem c2_counterexample :
    searchThrew distZero envPoiMalformed (clearedForSearch initialState) = true ∧
    (handleSearch distZero true "Hanoi" envPoiMalformed initialState).errorMessage ≠ "" ∧
    (handleSearch distZero true "Hanoi" envPoiMalformed initialState).weatherInfo =
      some ⟨25, 10, 90, "Overcast", "2025-01-01T00:00"⟩ :=
  ⟨by decide, by decide, by decide⟩

/-- C5 (amended): a weather response with non-success status, or one
with a well-formed body lacking current conditions, degrades gracefully
(weather absent, no error, given the result list is non-empty), while a
POI response with non-success status fails the whole search with the
upstream-unavailable message; however a weather fetch rejection or a
malformed weather body fails the whole search (see the
counterexample). -/
theorem c5_amended_weather_degrades_poi_fatal
    (dist : Option ℚ → Option ℚ → ℚ → ℚ → ℚ) (s : AppState) (userQuery : String)
    (first : GeoMatch) (rest : List GeoMatch) (hq : jsTrim userQuery ≠ "") :
    (∀ (wbody : JsonOutcome WeatherBody) (pd : PoiBody),
      formatPois dist first.lat first.lon (pd.getD []) ≠ [] →
      (handleSearch dist true userQuery
          ⟨.response true (.value (some (first :: rest))), .response false wbody,
            .response true (.value pd)⟩ s).errorMessage = "" ∧
      (handleSearch dist true userQuery
          ⟨.response true (.value (some (first :: rest))), .response false wbody,
            .response true (.value pd)⟩ s).weatherInfo = none) ∧
    (∀ pd : PoiBody,
      formatPois dist first.lat first.lon (pd.getD []) ≠ [] →
      (handleSearch dist true userQuery
          ⟨.response true (.value (some (first :: rest))), .response true (.value none),
            .response true (.value pd)⟩ s).errorMessage = "" ∧
      (handleSearch dist true userQuery
          ⟨.response true (.value (some (first :: rest))), .response true (.value none),
            .response true (.value pd)⟩ s).weatherInfo = none) ∧
    (∀ (wok : Bool) (wbody : JsonOutcome WeatherBody) (pbody : JsonOutcome PoiBody),
      (handleSearch dist true userQuery
          ⟨.response true (.value (some (first :: rest))), .response wok wbody,
            .response false pbody⟩ s).errorMessage =
        "Unable to fetch nearby points of interest." ∧
      (handleSearch dist true userQuery
          ⟨.response true (.value (some (first :: rest))), .response wok wbody,
            .response false pbody⟩ s).pois = [] ∧
      (handleSearch dist true userQuery
          ⟨.response true (.value (some (first :: rest))), .response wok wbody,
            .response false pbody⟩ s).weatherInfo = none) := by
  refine ⟨?_, ?_, ?_⟩
  · intro wbody pd hne
    constructor <;>
      simp [handleSearch, runSearchBody, clearedForSearch, hq, List.length_eq_zero, hne]
  · intro pd hne
    constructor <;>
      simp [handleSearch, runSearchBody, clearedForSearch, hq, List.length_eq_zero, hne]
  · intro wok wbody pbody
    refine ⟨?_, ?_, ?_⟩ <;>
      simp +decide [handleSearch, runSearchBody, clearedForSearch, hq]

/-- Witness for C5 (amended): graceful degrade on a non-success weather
response, and a fatal POI non-success status, at concrete runs. -/
theorem c5_witness :
    jsTrim "Hanoi" ≠ "" ∧
    formatPois distZero (some 21) (some 105) [elemCafe] ≠ [] ∧
    ((handleSearch distZero true "Hanoi" envWeatherNotOk initialState).errorMessage = "" ∧
      (handleSearch distZero true "Hanoi" envWeatherNotOk initialState).weatherInfo = none) ∧
    ((handleSearch distZero true "Hanoi" envPoiNotOk initialState).errorMessage =
        "Unable to fetch nearby points of interest." ∧
      (handleSearch distZero true "Hanoi" envPoiNotOk initialState).pois = [] ∧
      (handleSearch distZero true "Hanoi" envPoiNotOk initialState).weatherInfo = none) :=
  ⟨by decide, by decide,
   (c5_amended_weather_degrades_poi_fatal distZero initialState "Hanoi"
      ⟨some 21, some 105, "Hanoi, Vietnam"⟩ [] (by decide)).1
     (.value none) (some [elemCafe]) (by decide),
   (c5_amended_weather_degrades_poi_fatal distZero initialState "Hanoi"
      ⟨some 21, some 105, "Hanoi, Vietnam"⟩ [] (by decide)).2.2
     true (.value (some ⟨25, 10, 90, 3, "2025-01-01T00:00"⟩)) (.value none)⟩

/-- Counterexample to C5 as stated: a weather request that fails at the
network level (the fetch promise rejects) fails the whole search — the
published state carries the rejection message as the error — instead of
degrading to a successful search without weather. -/
theorem c5_counterexample :
    (handleSearch distZero true "Hanoi" envWeatherRejected initialState).errorMessage =
      "Failed to fetch" ∧
    searchThrew distZero envWeatherRejected (clearedForSearch initialState) = true :=
  ⟨by decide, by decide⟩

end VietnamPOI
